import Mathlib

/-!
Verification of the pixelflow event-delivery pipeline against its
natural-language specification.  The definitions below are shallow
embeddings of the TypeScript source:

* `src/lib/crypto.ts` — hashing helpers and deterministic event-id generation;
* `src/lib/rate-limit.ts` — Redis sliding-window rate limiter and the
  duplicate-suppression check;
* `src/lib/services/pixel-sender.ts` — the per-platform senders and the
  `sendToAllPlatforms` fan-out;
* the BullMQ event worker (`getEventQueue` / `startEventWorker`).

External primitives (the SHA-256 hex digest, JS number-to-string and JSON
serialisation) are modelled as function parameters: every theorem below
depends only on those primitives being functions (equal inputs give equal
outputs), never on properties of a digest.  JS strings are modelled by Lean
`String`, JS numbers by `Rat` (monetary values) / `Nat` (millisecond
timestamps) / `Int` (clock values that may be subtracted below zero).
-/

namespace Pixelflow

/-- JS truthiness of an optional string field (`string | null` in the source):
`null`/`undefined` and the empty string are falsy, every other string truthy. -/
def jsTruthy : Option String → Bool
  | none => false
  | some s => !(s == "")

/-- Leading/trailing whitespace removal of JS `String.prototype.trim`,
modelled character-wise. -/
def trimChars (l : List Char) : List Char :=
  ((l.dropWhile Char.isWhitespace).reverse.dropWhile Char.isWhitespace).reverse

/-- The normalisation `input.toLowerCase().trim()` performed by `hashSHA256`
in `src/lib/crypto.ts`. -/
def jsNormalize (s : String) : String :=
  String.mk (trimChars (s.data.map Char.toLower))

/-- `hashSHA256` from `src/lib/crypto.ts`.  The SHA-256 hex digest itself is a
call into the node crypto library, modelled by the parameter `h`; the empty
guard (`if (!input) return ''`) and the normalisation are the code's own. -/
def hashSHA256 (h : String → String) (input : String) : String :=
  if input = "" then "" else h (jsNormalize input)

/-- `hashEmail` from `src/lib/crypto.ts`. -/
def hashEmail (h : String → String) (email : String) : String :=
  if email = "" then "" else hashSHA256 h email

/-- The digit filter `phone.replace(/\D/g, '')` used by `hashPhone`. -/
def filterDigits (s : String) : String := String.mk (s.data.filter Char.isDigit)

/-- `hashPhone` from `src/lib/crypto.ts`: strip all non-numeric characters,
then hash. -/
def hashPhone (h : String → String) (phone : String) : String :=
  if phone = "" then "" else hashSHA256 h (filterDigits phone)

/-- Lexicographic comparison of character lists, the order underlying the
default (comparator-less) JS `Array.prototype.sort` on strings, modelled on
code points. -/
def charListLe : List Char → List Char → Bool
  | [], _ => true
  | _ :: _, [] => false
  | a :: as, b :: bs => if a = b then charListLe as bs else decide (a.toNat ≤ b.toNat)

/-- Lexicographic string comparison. -/
def strLe (a b : String) : Bool := charListLe a.data b.data

/-- `strLe` as a relation, for use with library sorting lemmas. -/
def strLeP (a b : String) : Prop := strLe a b = true

instance : DecidableRel strLeP := fun a b => instDecidableEqBool (strLe a b) true

/-- `(contentIds || []).sort()` — the default lexicographic JS sort. -/
def sortStrings (l : List String) : List String := List.insertionSort strLeP l

theorem charToNat_inj (a b : Char) (h : a.toNat = b.toNat) : a = b :=
  Char.ext (UInt32.ext h)

theorem charListLe_total (a b : List Char) : charListLe a b = true ∨ charListLe b a = true := by
  induction a generalizing b with
  | nil => left; rfl
  | cons x xs ih =>
    cases b with
    | nil => right; rfl
    | cons y ys =>
      by_cases hxy : x = y
      · subst hxy
        simp only [charListLe, if_pos rfl]
        exact ih ys
      · have hyx : ¬ y = x := fun h => hxy h.symm
        simp only [charListLe, if_neg hxy, if_neg hyx, decide_eq_true_eq]
        exact Nat.le_total x.toNat y.toNat

theorem charListLe_trans (a b c : List Char) (h1 : charListLe a b = true)
    (h2 : charListLe b c = true) : charListLe a c = true := by
  induction a generalizing b c with
  | nil => rfl
  | cons x xs ih =>
    cases b with
    | nil => simp [charListLe] at h1
    | cons y ys =>
      cases c with
      | nil => simp [charListLe] at h2
      | cons z zs =>
        by_cases hxy : x = y
        · subst hxy
          simp only [charListLe, if_pos rfl] at h1
          by_cases hxz : x = z
          · subst hxz
            simp only [charListLe, if_pos rfl] at h2 ⊢
            exact ih ys zs h1 h2
          · simp only [charListLe, if_neg hxz] at h2 ⊢
            exact h2
        · simp only [charListLe, if_neg hxy, decide_eq_true_eq] at h1
          by_cases hyz : y = z
          · subst hyz
            simp only [charListLe, if_neg hxy, decide_eq_true_eq]
            exact h1
          · simp only [charListLe, if_neg hyz, decide_eq_true_eq] at h2
            by_cases hxz : x = z
            · subst hxz
              have hxy2 : x = y := charToNat_inj x y (Nat.le_antisymm h1 h2)
              exact absurd hxy2 hxy
            · simp only [charListLe, if_neg hxz, decide_eq_true_eq]
              exact Nat.le_trans h1 h2

theorem charListLe_antisymm (a b : List Char) (h1 : charListLe a b = true)
    (h2 : charListLe b a = true) : a = b := by
  induction a generalizing b with
  | nil =>
    cases b with
    | nil => rfl
    | cons y ys => simp [charListLe] at h2
  | cons x xs ih =>
    cases b with
    | nil => simp [charListLe] at h1
    | cons y ys =>
      by_cases hxy : x = y
      · subst hxy
        simp only [charListLe, if_pos rfl] at h1 h2
        rw [ih ys h1 h2]
      · have hyx : ¬ y = x := fun h => hxy h.symm
        simp only [charListLe, if_neg hxy, if_neg hyx, decide_eq_true_eq] at h1 h2
        exact absurd (charToNat_inj x y (Nat.le_antisymm h1 h2)) hxy

instance : IsTotal String strLeP := ⟨fun a b => charListLe_total a.data b.data⟩

instance : IsTrans String strLeP := ⟨fun a b c => charListLe_trans a.data b.data c.data⟩

instance : IsAntisymm String strLeP where
  antisymm a b h1 h2 := by
    cases a with
    | mk la =>
      cases b with
      | mk lb => exact congrArg String.mk (charListLe_antisymm la lb h1 h2)

/-- Sorting is a function of the multiset of elements: permuted inputs sort to
the same list. -/
theorem sortStrings_eq_of_perm (l1 l2 : List String) (h : l1.Perm l2) :
    sortStrings l1 = sortStrings l2 :=
  List.eq_of_perm_of_sorted
    ((List.perm_insertionSort _ l1).trans (h.trans (List.perm_insertionSort _ l2).symm))
    (List.sorted_insertionSort _ l1) (List.sorted_insertionSort _ l2)

/-- The parameter object of `generateEventId` in `src/lib/crypto.ts`.
`timestamp` is in milliseconds; `value` is the optional monetary value. -/
structure EventIdParams where
  merchantId : String
  eventName : String
  userId : Option String
  orderId : Option String
  timestamp : Nat
  value : Option Rat
  contentIds : Option (List String)

/-- The JS expression `value || ''`: an absent value and the (falsy) number
`0` both serialise to the empty string; any other number is printed by the JS
number-to-string conversion, modelled by `numRepr`. -/
def serializeValue (numRepr : Rat → String) : Option Rat → String
  | none => ""
  | some v => if v = 0 then "" else numRepr v

/-- The pipe-joined canonical field list built inside `generateEventId`:
merchant, event name, `userId || ''`, `orderId || ''`, the timestamp rounded
down to its 5-second bucket, `value || ''`, and the sorted comma-joined
content ids. -/
def dataString (numRepr : Rat → String) (p : EventIdParams) : String :=
  String.intercalate "|"
    [p.merchantId, p.eventName, p.userId.getD "", p.orderId.getD "",
     toString (p.timestamp / 5000 * 5000),
     serializeValue numRepr p.value,
     String.intercalate "," (sortStrings (p.contentIds.getD []))]

/-- `generateEventId` from `src/lib/crypto.ts`: the SHA-256 digest (parameter
`h`) of the canonical data string. -/
def generateEventId (h : String → String) (numRepr : Rat → String) (p : EventIdParams) : String :=
  hashSHA256 h (dataString numRepr p)

/-- C4: with all other arguments fixed, two timestamps in the same 5-second
bucket (`floor(t1/5000) = floor(t2/5000)`) produce identical fingerprints. -/
theorem generateEventId_same_bucket (h : String → String) (numRepr : Rat → String)
    (m e : String) (u o : Option String) (t1 t2 : Nat) (v : Option Rat)
    (c : Option (List String)) (hb : t1 / 5000 = t2 / 5000) :
    generateEventId h numRepr ⟨m, e, u, o, t1, v, c⟩ =
      generateEventId h numRepr ⟨m, e, u, o, t2, v, c⟩ := by
  simp only [generateEventId, dataString, hb]

/-- C4 witness: timestamps 1002 and 4998 share the bucket 0 and fingerprint. -/
theorem generateEventId_same_bucket_witness :
    1002 / 5000 = (4998 : Nat) / 5000 ∧
    generateEventId id (fun _ => "num")
        ⟨"m1", "Purchase", some "u1", some "o1", 1002, some 5, some ["a", "b"]⟩ =
      generateEventId id (fun _ => "num")
        ⟨"m1", "Purchase", some "u1", some "o1", 4998, some 5, some ["a", "b"]⟩ :=
  ⟨by decide,
   generateEventId_same_bucket id (fun _ => "num") "m1" "Purchase" (some "u1") (some "o1")
     1002 4998 (some 5) (some ["a", "b"]) (by decide)⟩

/-- C9: permuting `contentIds` with all other arguments fixed does not change
the fingerprint. -/
theorem generateEventId_contentIds_perm (h : String → String) (numRepr : Rat → String)
    (m e : String) (u o : Option String) (t : Nat) (v : Option Rat)
    (c1 c2 : List String) (hp : c1.Perm c2) :
    generateEventId h numRepr ⟨m, e, u, o, t, v, some c1⟩ =
      generateEventId h numRepr ⟨m, e, u, o, t, v, some c2⟩ := by
  simp only [generateEventId, dataString, Option.getD_some]
  rw [sortStrings_eq_of_perm c1 c2 hp]

/-- C9 witness: `contentIds = ["b","a"]` and `contentIds = ["a","b"]` give
equal keys. -/
theorem generateEventId_contentIds_perm_witness :
    List.Perm ["b", "a"] ["a", "b"] ∧
    generateEventId id (fun _ => "num")
        ⟨"m1", "AddToCart", none, none, 7000, none, some ["b", "a"]⟩ =
      generateEventId id (fun _ => "num")
        ⟨"m1", "AddToCart", none, none, 7000, none, some ["a", "b"]⟩ :=
  ⟨List.Perm.swap "a" "b" [],
   generateEventId_contentIds_perm id (fun _ => "num") "m1" "AddToCart" none none 7000 none
     ["b", "a"] ["a", "b"] (List.Perm.swap "a" "b" [])⟩

/-- C10: the serialisation `value || ''` cannot distinguish a monetary value
of `0` from an absent value, so the two calls fingerprint identically. -/
theorem generateEventId_zero_value_eq_absent (h : String → String) (numRepr : Rat → String)
    (m e : String) (u o : Option String) (t : Nat) (c : Option (List String)) :
    generateEventId h numRepr ⟨m, e, u, o, t, some 0, c⟩ =
      generateEventId h numRepr ⟨m, e, u, o, t, none, c⟩ := by
  simp [generateEventId, dataString, serializeValue]

/-- Failure injection for the shared Redis store: one flag per Redis call made
by `src/lib/rate-limit.ts`, `true` meaning that call raises.  An unreachable
store is the state in which every call raises (`storeDown`). -/
structure RedisHealth where
  remFails : Bool
  cardFails : Bool
  rangeFails : Bool
  addFails : Bool
  expireFails : Bool
  setFails : Bool

/-- The store is fully reachable: no Redis call raises. -/
def storeUp : RedisHealth := ⟨false, false, false, false, false, false⟩

/-- The store is unreachable: every Redis call raises. -/
def storeDown : RedisHealth := ⟨true, true, true, true, true, true⟩

/-- The result record of `checkRateLimit`. -/
structure RateLimitResult where
  allowed : Bool
  remaining : Int
  resetAt : Int
  deriving DecidableEq

/-- The member scores of the sorted set at key `rate-limit:<identifier>`, one
entry per recorded request marker (the member strings carry a random suffix
and are never compared, so only the scores matter). -/
def slideEvict (now : Int) (window : Nat) (st : List Int) : List Int :=
  st.filter (fun s => !(decide (0 ≤ s) && decide (s ≤ now - (window : Int) * 1000)))

/-- The fail-open result returned by the `catch` branch of `checkRateLimit`. -/
def failOpenResult (limit window : Nat) (now : Int) : RateLimitResult :=
  { allowed := true, remaining := (limit : Int), resetAt := now + (window : Int) * 1000 }

/-- `checkRateLimit` from `src/lib/rate-limit.ts`, for a single identifier.
The call sequence mirrors the source: `zremrangebyscore key 0 windowStart`
(eviction), `zcard` (count), then either `zrange key 0 0 WITHSCORES` on the
reject path or `zadd` + `expire` on the admit path; if any of those Redis
calls raises, the `catch` branch fails open.  Returns the result together
with the store state left behind. -/
def checkRateLimit (hlt : RedisHealth) (st : List Int) (limit window : Nat) (now : Int) :
    RateLimitResult × List Int :=
  if hlt.remFails then (failOpenResult limit window now, st)
  else
    let s1 := slideEvict now window st
    if hlt.cardFails then (failOpenResult limit window now, s1)
    else
      let count := s1.length
      if count ≥ limit then
        if hlt.rangeFails then (failOpenResult limit window now, s1)
        else
          let resetAt := match s1.min? with
            | some m => m + (window : Int) * 1000
            | none => now + (window : Int) * 1000
          ({ allowed := false, remaining := 0, resetAt := resetAt }, s1)
      else
        if hlt.addFails then (failOpenResult limit window now, s1)
        else
          let s2 := s1 ++ [now]
          if hlt.expireFails then (failOpenResult limit window now, s2)
          else
            ({ allowed := true, remaining := (limit : Int) - count - 1,
               resetAt := now + (window : Int) * 1000 }, s2)

/-- The result record of `checkDuplication`. -/
structure DedupResult where
  isDuplicate : Bool
  deriving DecidableEq

/-- `checkDuplication` from `src/lib/rate-limit.ts`: an atomic
`SET key '1' EX windowSeconds NX` on key `dedup:<eventId>`; the event is a
duplicate exactly when the key was already present (and unexpired).  The store
is the list of `(key, expiresAt)` pairs; if the `set` call raises, the `catch`
branch fails open and reports not-a-duplicate. -/
def checkDuplication (hlt : RedisHealth) (store : List (String × Int)) (eventId : String)
    (windowSeconds : Nat) (now : Int) : DedupResult × List (String × Int) :=
  if hlt.setFails then ({ isDuplicate := false }, store)
  else
    let key := "dedup:" ++ eventId
    let present := store.any (fun kv => kv.1 == key && decide (now < kv.2))
    if present then ({ isDuplicate := true }, store)
    else ({ isDuplicate := false }, store ++ [(key, now + (windowSeconds : Int) * 1000)])

/-- C5: with the store reachable, each check evicts the markers that have aged
out of the sliding window, admits exactly when the remaining count is below
the limit (recording a marker when it admits), and on the concrete scenario
limit=3/window=10s admits three calls at t=0, rejects a fourth at t=5s and
admits a fifth at t=11s after the first marker expired. -/
theorem checkRateLimit_sliding_window :
    (∀ (st : List Int) (lim win : Nat) (now : Int),
        (checkRateLimit storeUp st lim win now).1.allowed
            = decide ((slideEvict now win st).length < lim)
          ∧ (checkRateLimit storeUp st lim win now).2
            = (if (slideEvict now win st).length < lim
                then slideEvict now win st ++ [now] else slideEvict now win st))
    ∧ (checkRateLimit storeUp [] 3 10 0).1.allowed = true
    ∧ (checkRateLimit storeUp (checkRateLimit storeUp [] 3 10 0).2 3 10 0).1.allowed = true
    ∧ (checkRateLimit storeUp
        (checkRateLimit storeUp (checkRateLimit storeUp [] 3 10 0).2 3 10 0).2
        3 10 0).1.allowed = true
    ∧ (checkRateLimit storeUp
        (checkRateLimit storeUp
          (checkRateLimit storeUp (checkRateLimit storeUp [] 3 10 0).2 3 10 0).2
          3 10 0).2
        3 10 5000).1.allowed = false
    ∧ (checkRateLimit storeUp
        (checkRateLimit storeUp
          (checkRateLimit storeUp
            (checkRateLimit storeUp (checkRateLimit storeUp [] 3 10 0).2 3 10 0).2
            3 10 0).2
          3 10 5000).2
        3 10 11000).1.allowed = true := by
  refine ⟨fun st lim win now => ?_, by decide, by decide, by decide, by decide, by decide⟩
  by_cases hc : (slideEvict now win st).length < lim
  · have hge : ¬ (slideEvict now win st).length ≥ lim := not_le.mpr hc
    simp [checkRateLimit, storeUp, hge, hc]
  · have hge : (slideEvict now win st).length ≥ lim := not_lt.mp hc
    simp [checkRateLimit, storeUp, hge, hc]

/-- C6: when the store is unreachable (every Redis call raises) both checks
fail open: `checkRateLimit` admits with `remaining = limit`, and
`checkDuplication` reports not-a-duplicate, for every input. -/
theorem failOpen_when_store_unreachable :
    ∀ (st : List Int) (lim win : Nat) (now : Int) (dst : List (String × Int))
      (eid : String) (dwin : Nat) (dnow : Int),
      (checkRateLimit storeDown st lim win now).1.allowed = true
      ∧ (checkRateLimit storeDown st lim win now).1.remaining = (lim : Int)
      ∧ (checkDuplication storeDown dst eid dwin dnow).1.isDuplicate = false := by
  intro st lim win now dst eid dwin dnow
  refine ⟨?_, ?_, ?_⟩ <;> simp [checkRateLimit, checkDuplication, storeDown, failOpenResult]

/-- The delivery-relevant fields of a `TrackingEvent` row: overall status,
retry counter, the three per-platform statuses, and whether `processedAt` has
been stamped. -/
structure TrackingEvent where
  id : String
  status : String
  retryCount : Nat
  facebookStatus : String
  tiktokStatus : String
  googleStatus : String
  processedAt : Bool
  deriving DecidableEq

/-- The dispatch-relevant fields of a `PixelConfig` row. -/
structure PixelConfig where
  platform : String
  isActive : Bool
  conversionApiEnabled : Bool
  deriving DecidableEq

/-- The platforms with an implemented sender in the `switch` of
`sendToAllPlatforms`; any other platform value only logs
"not yet implemented". -/
def knownPlatform (p : String) : Bool :=
  p == "facebook" || p == "tiktok" || p == "google_analytics"

/-- One arm of the fan-out `switch`: invoke the platform's sender.  A sender
that succeeds records the per-platform status `success`; a sender that raises
has its rejection collected (and discarded) by `Promise.allSettled`, leaving
the event row untouched — `handleFailure` is never called on this path.
`senderOk p` says whether platform `p`'s sender succeeds on this attempt. -/
def applySender (senderOk : String → Bool) (ev : TrackingEvent) (c : PixelConfig) : TrackingEvent :=
  if c.platform == "facebook" then
    if senderOk "facebook" then { ev with facebookStatus := "success" } else ev
  else if c.platform == "tiktok" then
    if senderOk "tiktok" then { ev with tiktokStatus := "success" } else ev
  else if c.platform == "google_analytics" then
    if senderOk "google_analytics" then { ev with googleStatus := "success" } else ev
  else ev

/-- `PixelSender.sendToAllPlatforms` from `src/lib/services/pixel-sender.ts`.
It throws only when the tracking event cannot be loaded (`eventFound = false`
models the lookup failing or returning `null`); otherwise it fans out to
every *active* config whose `conversionApiEnabled` flag is set and resolves
via `Promise.allSettled`, which never rejects — individual sender failures
are swallowed.  Returns the updated event row together with the list of
platforms whose sender was invoked. -/
def sendToAllPlatforms (senderOk : String → Bool) (eventFound : Bool)
    (configs : List PixelConfig) (ev : TrackingEvent) :
    Except String (TrackingEvent × List String) :=
  if !eventFound then Except.error ("Tracking event " ++ ev.id ++ " not found")
  else
    let active := configs.filter (fun c => c.isActive)
    let attempted := active.filter (fun c => c.conversionApiEnabled)
    Except.ok (attempted.foldl (applySender senderOk) ev,
      (attempted.filter (fun c => knownPlatform c.platform)).map (fun c => c.platform))

/-- The platforms whose sender a `sendToAllPlatforms` call invoked. -/
def invokedPlatforms (r : Except String (TrackingEvent × List String)) : List String :=
  match r with
  | Except.ok (_, l) => l
  | Except.error _ => []

/-- One processing attempt of the BullMQ worker in `startEventWorker`
(`src/unnamed/part_004`): mark the event `processing`, run
`sendToAllPlatforms`, and on resolution mark it `completed` with a
`processedAt` stamp; on a raised error increment the retry counter, mark the
event `failed` (with `processedAt`) when the attempt cap
(`job.opts.attempts || 3`) is reached, and re-throw.  The returned flag is
whether the handler threw (so the queue schedules a retry while attempts
remain). -/
def processJobAttempt (senderOk : String → Bool) (eventFound : Bool)
    (configs : List PixelConfig) (attemptsMade attempts : Nat) (ev : TrackingEvent) :
    TrackingEvent × Bool :=
  let ev0 := { ev with status := "processing" }
  match sendToAllPlatforms senderOk eventFound configs ev0 with
  | Except.ok (ev1, _) => ({ ev1 with status := "completed", processedAt := true }, false)
  | Except.error _ =>
    let cap := if attempts = 0 then 3 else attempts
    let ev1 := { ev0 with retryCount := ev0.retryCount + 1 }
    if attemptsMade ≥ cap - 1 then ({ ev1 with status := "failed", processedAt := true }, true)
    else (ev1, true)

/-- The queue's retry loop: run attempts starting from `attemptsMade`, with
`fuel` bounding the recursion, retrying while the handler throws and attempts
remain (the queue is configured with `attempts: 3` in `getEventQueue`).
`senderOk` may vary per attempt number. -/
def runJobFrom (senderOk : Nat → String → Bool) (eventFound : Bool)
    (configs : List PixelConfig) (attempts : Nat) :
    Nat → Nat → TrackingEvent → TrackingEvent
  | _, 0, ev => ev
  | attemptsMade, fuel + 1, ev =>
    let r := processJobAttempt (senderOk attemptsMade) eventFound configs attemptsMade attempts ev
    if r.2 && decide (attemptsMade + 1 < attempts) then
      runJobFrom senderOk eventFound configs attempts (attemptsMade + 1) fuel r.1
    else r.1

/-- A full job run from the first attempt. -/
def runJob (senderOk : Nat → String → Bool) (eventFound : Bool)
    (configs : List PixelConfig) (attempts : Nat) (ev : TrackingEvent) : TrackingEvent :=
  runJobFrom senderOk eventFound configs attempts 0 attempts ev

/-- An active Facebook config with the conversion API enabled. -/
def fbConfig : PixelConfig := ⟨"facebook", true, true⟩

/-- An active TikTok config with the conversion API enabled. -/
def ttConfig : PixelConfig := ⟨"tiktok", true, true⟩

/-- A freshly created event awaiting its first dispatch. -/
def pendingEvent : TrackingEvent := ⟨"evt1", "pending", 0, "pending", "pending", "pending", false⟩

/-- An event whose Facebook delivery already succeeded on an earlier attempt
and which is being dispatched again. -/
def fbSucceededEvent : TrackingEvent :=
  ⟨"evt1", "pending", 1, "success", "pending", "pending", false⟩

/-- C1: with the Facebook sender succeeding and the TikTok sender raising on
the same event, the worker nevertheless marks the event `completed`, leaves
the retry counter untouched and does not re-throw — `Promise.allSettled`
swallows the sender's rejection, so the partial failure never reaches the
worker's catch block.  The succeeded platform's status is `success` and the
failed platform's stays `pending`. -/
theorem worker_marks_completed_despite_partial_sender_failure :
    (processJobAttempt (fun p => p == "facebook") true [fbConfig, ttConfig] 0 3
        pendingEvent).1.status = "completed"
    ∧ (processJobAttempt (fun p => p == "facebook") true [fbConfig, ttConfig] 0 3
        pendingEvent).1.retryCount = 0
    ∧ (processJobAttempt (fun p => p == "facebook") true [fbConfig, ttConfig] 0 3
        pendingEvent).2 = false
    ∧ (processJobAttempt (fun p => p == "facebook") true [fbConfig, ttConfig] 0 3
        pendingEvent).1.facebookStatus = "success"
    ∧ (processJobAttempt (fun p => p == "facebook") true [fbConfig, ttConfig] 0 3
        pendingEvent).1.tiktokStatus = "pending" := by
  decide

/-- C2 counterexample: on a retried dispatch of an event whose Facebook status
is already `success`, `sendToAllPlatforms` still invokes the Facebook sender —
no per-platform status check precedes the fan-out. -/
theorem retried_dispatch_reinvokes_succeeded_sender :
    fbSucceededEvent.facebookStatus = "success"
    ∧ invokedPlatforms (sendToAllPlatforms (fun _ => true) true [fbConfig, ttConfig]
        fbSucceededEvent) = ["facebook", "tiktok"] := by
  decide

/-- C2 amended: on every dispatch attempt the set of invoked senders is the
active, conversion-API-enabled configs' platforms, independent of the event's
per-platform statuses — an already-succeeded platform is re-invoked. -/
theorem sendToAllPlatforms_invocation_ignores_platform_status :
    ∀ (s : String → Bool) (cfgs : List PixelConfig) (ev1 ev2 : TrackingEvent),
      invokedPlatforms (sendToAllPlatforms s true cfgs ev1)
        = invokedPlatforms (sendToAllPlatforms s true cfgs ev2) := by
  intro s cfgs ev1 ev2
  rfl

/-- C3: with every sender failing on every attempt and the 3-attempt cap
configured, the job nevertheless ends after the first attempt with the event
marked `completed` and a retry counter of 0 — not `failed` with counter 3 as
specified — because `Promise.allSettled` hides the sender failures from the
worker. -/
theorem worker_never_reaches_failed_cap_on_sender_failures :
    (runJob (fun _ _ => false) true [fbConfig, ttConfig] 3 pendingEvent).status = "completed"
    ∧ (runJob (fun _ _ => false) true [fbConfig, ttConfig] 3 pendingEvent).retryCount = 0
    ∧ (runJob (fun _ _ => false) true [fbConfig, ttConfig] 3 pendingEvent).facebookStatus
        = "pending" := by
  decide

/-- The parsed Facebook Conversions API response body as inspected by
`sendToFacebook`: `error` is the error object's message when an `error` field
is present, `events_received` and `messages` are the other inspected fields
(`none` models an absent field). -/
structure FBResponse where
  error : Option String
  events_received : Option Nat
  messages : Option (List String)
  deriving DecidableEq

/-- The body-level rejection test of `sendToFacebook`:
`data.error || (data.events_received === 0 && data.messages)` — Facebook
returns HTTP 200 even with errors, so the body is inspected. -/
def fbBodyRejects (d : FBResponse) : Bool :=
  d.error.isSome || (d.events_received == some 0 && d.messages.isSome)

/-- The raised message source
`data.error?.message || JSON.stringify(data.messages)`; `jstr` models
`JSON.stringify` applied to the `messages` field. -/
def fbErrorMsg (jstr : Option (List String) → String) (d : FBResponse) : String :=
  match d.error with
  | some m => if m == "" then jstr d.messages else m
  | none => jstr d.messages

/-- The tail of `sendToFacebook` after the response body is parsed: raise
`Facebook API error: <msg>` when the body carries an error indicator,
otherwise record `facebookStatus = 'success'` (modelled as `Except.ok`). -/
def sendToFacebookOutcome (jstr : Option (List String) → String) (d : FBResponse) :
    Except String String :=
  if fbBodyRejects d then Except.error ("Facebook API error: " ++ fbErrorMsg jstr d)
  else Except.ok "success"

/-- The parsed TikTok Events API response body as inspected by `sendToTikTok`. -/
structure TTResponse where
  code : Option Int
  message : Option String
  deriving DecidableEq

/-- The raised message source `data.message || JSON.stringify(data)`; `tjstr`
models `JSON.stringify` of the whole body. -/
def ttErrorMsg (tjstr : TTResponse → String) (d : TTResponse) : String :=
  match d.message with
  | some m => if m == "" then tjstr d else m
  | none => tjstr d

/-- The tail of `sendToTikTok`: `if (data.code !== 0) throw`, else record
`tiktokStatus = 'success'`. -/
def sendToTikTokOutcome (tjstr : TTResponse → String) (d : TTResponse) :
    Except String String :=
  if d.code == some 0 then Except.ok "success"
  else Except.error ("TikTok API error: " ++ ttErrorMsg tjstr d)

/-- C7: a 2xx response whose body carries an error indicator is treated as a
failure: Facebook raises (carrying the body's error message) on a non-empty
`error` field, and on `events_received = 0` together with a `messages` field;
TikTok raises on any non-zero `code`.  In no such case is the per-platform
`success` status recorded. -/
theorem sender_raises_on_error_in_http_success_body
    (jstr : Option (List String) → String) (tjstr : TTResponse → String)
    (d1 d2 : FBResponse) (dt : TTResponse) (m : String) (ms : List String) (c : Int)
    (h1 : d1.error = some m) (hm : m ≠ "")
    (h2 : d2.error = none) (h3 : d2.events_received = some 0) (h4 : d2.messages = some ms)
    (h5 : dt.code = some c) (h6 : c ≠ 0) :
    sendToFacebookOutcome jstr d1 = Except.error ("Facebook API error: " ++ m)
    ∧ (∀ s, sendToFacebookOutcome jstr d1 ≠ Except.ok s)
    ∧ sendToFacebookOutcome jstr d2 = Except.error ("Facebook API error: " ++ jstr (some ms))
    ∧ (∀ s, sendToFacebookOutcome jstr d2 ≠ Except.ok s)
    ∧ sendToTikTokOutcome tjstr dt = Except.error ("TikTok API error: " ++ ttErrorMsg tjstr dt)
    ∧ (∀ s, sendToTikTokOutcome tjstr dt ≠ Except.ok s) := by
  have hr1 : sendToFacebookOutcome jstr d1 = Except.error ("Facebook API error: " ++ m) := by
    simp [sendToFacebookOutcome, fbBodyRejects, fbErrorMsg, h1, hm]
  have hr2 : sendToFacebookOutcome jstr d2
      = Except.error ("Facebook API error: " ++ jstr (some ms)) := by
    simp [sendToFacebookOutcome, fbBodyRejects, fbErrorMsg, h2, h3, h4]
  have hrt : sendToTikTokOutcome tjstr dt
      = Except.error ("TikTok API error: " ++ ttErrorMsg tjstr dt) := by
    have hne : ¬ dt.code = some 0 := by
      rw [h5]
      intro hcontra
      exact h6 (Option.some.inj hcontra)
    simp [sendToTikTokOutcome, hne]
  refine ⟨hr1, ?_, hr2, ?_, hrt, ?_⟩ <;> intro s hcontra
  · rw [hr1] at hcontra
    exact Except.noConfusion hcontra
  · rw [hr2] at hcontra
    exact Except.noConfusion hcontra
  · rw [hrt] at hcontra
    exact Except.noConfusion hcontra

/-- C7 witness: concrete bodies — Facebook with an `error` message, Facebook
with `events_received = 0` plus `messages`, TikTok with `code = 40001`. -/
theorem sender_raises_on_error_in_http_success_body_witness :
    (FBResponse.mk (some "Invalid parameter") (some 1) none).error = some "Invalid parameter"
    ∧ ("Invalid parameter" : String) ≠ ""
    ∧ (FBResponse.mk none (some 0) (some ["dropped"])).events_received = some 0
    ∧ (TTResponse.mk (some 40001) (some "invalid event")).code = some 40001
    ∧ ((40001 : Int) ≠ 0)
    ∧ sendToFacebookOutcome (fun _ => "stringified") (FBResponse.mk (some "Invalid parameter") (some 1) none)
        = Except.error "Facebook API error: Invalid parameter"
    ∧ sendToFacebookOutcome (fun _ => "stringified") (FBResponse.mk none (some 0) (some ["dropped"]))
        = Except.error "Facebook API error: stringified"
    ∧ sendToTikTokOutcome (fun _ => "body") (TTResponse.mk (some 40001) (some "invalid event"))
        = Except.error "TikTok API error: invalid event" := by
  have h := sender_raises_on_error_in_http_success_body
    (fun _ => "stringified") (fun _ => "body")
    (FBResponse.mk (some "Invalid parameter") (some 1) none)
    (FBResponse.mk none (some 0) (some ["dropped"]))
    (TTResponse.mk (some 40001) (some "invalid event"))
    "Invalid parameter" ["dropped"] 40001
    rfl (by decide) rfl rfl rfl rfl (by decide)
  exact ⟨rfl, by decide, rfl, rfl, by decide, h.1, h.2.2.1, h.2.2.2.2.1⟩

/-- The user-identity fields of the event row consumed by the senders
(`string | null` in the source, so `none` and `some ""` are both falsy). -/
structure SenderEvent where
  email : Option String
  phone : Option String
  ipAddress : Option String
  userAgent : Option String
  fbc : Option String
  fbp : Option String
  userId : Option String
  deriving DecidableEq

/-- `if (event.email) userData.em = hashEmail(event.email)` — the only form in
which the email enters any outbound payload. -/
def hashedEmailField (h : String → String) (e : SenderEvent) : Option String :=
  if jsTruthy e.email then some (hashEmail h (e.email.getD "")) else none

/-- `if (event.phone) userData.ph = hashPhone(event.phone)` — the only form in
which the phone enters any outbound payload. -/
def hashedPhoneField (h : String → String) (e : SenderEvent) : Option String :=
  if jsTruthy e.phone then some (hashPhone h (e.phone.getD "")) else none

/-- `if (event.x) payload.y = event.x` for the non-PII fields, which are
copied verbatim when truthy. -/
def optField (o : Option String) : Option String := if jsTruthy o then o else none

/-- The `user_data` object built by `sendToFacebook`. -/
structure FBUserData where
  em : Option String
  ph : Option String
  client_ip_address : Option String
  client_user_agent : Option String
  fbc : Option String
  fbp : Option String
  external_id : Option String
  deriving DecidableEq

/-- `sendToFacebook`'s construction of `user_data` from the event row. -/
def buildFacebookUserData (h : String → String) (e : SenderEvent) : FBUserData :=
  { em := hashedEmailField h e
    ph := hashedPhoneField h e
    client_ip_address := optField e.ipAddress
    client_user_agent := optField e.userAgent
    fbc := optField e.fbc
    fbp := optField e.fbp
    external_id := optField e.userId }

/-- The `user` object built by `sendToTikTok`. -/
structure TTUser where
  email : Option String
  phone_number : Option String
  ip : Option String
  user_agent : Option String
  external_id : Option String
  deriving DecidableEq

/-- `sendToTikTok`'s construction of `user` from the event row. -/
def buildTikTokUser (h : String → String) (e : SenderEvent) : TTUser :=
  { email := hashedEmailField h e
    phone_number := hashedPhoneField h e
    ip := optField e.ipAddress
    user_agent := optField e.userAgent
    external_id := optField e.userId }

/-- Phones that agree on their digit sequence hash identically: `hashPhone`
strips every non-numeric character before hashing. -/
theorem hashPhone_eq_of_same_digits (h : String → String) (p1 p2 : String)
    (hd : filterDigits p1 = filterDigits p2) : hashPhone h p1 = hashPhone h p2 := by
  unfold hashPhone
  by_cases h1 : p1 = ""
  · by_cases h2 : p2 = ""
    · simp [h1, h2]
    · subst h1
      have hz : filterDigits p2 = "" := by rw [← hd]; rfl
      rw [if_pos rfl, if_neg h2, hz]
      show "" = if ("" : String) = "" then "" else h (jsNormalize "")
      rw [if_pos rfl]
  · by_cases h2 : p2 = ""
    · subst h2
      have hz : filterDigits p1 = "" := by rw [hd]; rfl
      rw [if_neg h1, if_pos rfl, hz]
      show (if ("" : String) = "" then "" else h (jsNormalize "")) = ""
      rw [if_pos rfl]
    · rw [if_neg h1, if_neg h2, hd]

/-- C8: the outbound identity payloads carry the email and phone only as
one-way hashes — each builder's email/phone field equals the hashed field, and
the whole payload is a function of the hashed values (two events agreeing on
everything but the raw email/phone, with equal hashed fields, produce
identical payloads); and phones with the same digit sequence hash
identically. -/
theorem outbound_payload_carries_only_hashed_pii (h : String → String)
    (e1 e2 : SenderEvent) (p1 p2 : String)
    (hip : e1.ipAddress = e2.ipAddress) (hua : e1.userAgent = e2.userAgent)
    (hfbc : e1.fbc = e2.fbc) (hfbp : e1.fbp = e2.fbp) (huid : e1.userId = e2.userId)
    (hem : hashedEmailField h e1 = hashedEmailField h e2)
    (hph : hashedPhoneField h e1 = hashedPhoneField h e2)
    (hd : filterDigits p1 = filterDigits p2) :
    buildFacebookUserData h e1 = buildFacebookUserData h e2
    ∧ buildTikTokUser h e1 = buildTikTokUser h e2
    ∧ (buildFacebookUserData h e1).em = hashedEmailField h e1
    ∧ (buildFacebookUserData h e1).ph = hashedPhoneField h e1
    ∧ (buildTikTokUser h e1).email = hashedEmailField h e1
    ∧ (buildTikTokUser h e1).phone_number = hashedPhoneField h e1
    ∧ hashPhone h p1 = hashPhone h p2 := by
  refine ⟨?_, ?_, rfl, rfl, rfl, rfl, hashPhone_eq_of_same_digits h p1 p2 hd⟩
  · simp [buildFacebookUserData, optField, hip, hua, hfbc, hfbp, huid, hem, hph]
  · simp [buildTikTokUser, optField, hip, hua, huid, hem, hph]

/-- C8 witness: two events whose raw email/phone differ only in case,
whitespace and phone formatting produce identical payloads, with the digest
function instantiated to the identity on the normalised input. -/
theorem outbound_payload_carries_only_hashed_pii_witness :
    hashedEmailField id
        (SenderEvent.mk (some "Foo@Ex.com") (some "+1 (555) 010") (some "1.2.3.4") none none none (some "u1"))
      = hashedEmailField id
        (SenderEvent.mk (some " foo@ex.COM ") (some "1-555-010") (some "1.2.3.4") none none none (some "u1"))
    ∧ filterDigits "+1 (555) 010" = filterDigits "1-555-010"
    ∧ buildFacebookUserData id
        (SenderEvent.mk (some "Foo@Ex.com") (some "+1 (555) 010") (some "1.2.3.4") none none none (some "u1"))
      = buildFacebookUserData id
        (SenderEvent.mk (some " foo@ex.COM ") (some "1-555-010") (some "1.2.3.4") none none none (some "u1"))
    ∧ hashPhone id "+1 (555) 010" = hashPhone id "1-555-010" := by
  have h := outbound_payload_carries_only_hashed_pii id
    (SenderEvent.mk (some "Foo@Ex.com") (some "+1 (555) 010") (some "1.2.3.4") none none none (some "u1"))
    (SenderEvent.mk (some " foo@ex.COM ") (some "1-555-010") (some "1.2.3.4") none none none (some "u1"))
    "+1 (555) 010" "1-555-010"
    rfl rfl rfl rfl rfl (by decide) (by decide) (by decide)
  exact ⟨by decide, by decide, h.1, h.2.2.2.2.2.2⟩

end Pixelflow
